import Mathlib

/-!
Shallow embedding of the auto-tracking engine of `src/auto-track.js`
(analytics-sdk-cdn). Pure parts of the listener bodies are modelled as Lean
functions over explicit element/form/scroll-state models; the external sink
(`window.Analytics.track`) is a function parameter that may fail, modelled
with `Except String`, so that exception propagation out of a listener body is
observable. JavaScript numbers that can become `NaN` or `Infinity` in the
scroll-depth computation are modelled by the inductive `JSNum`.
-/

namespace AutoTrack

/-- Feature-toggle configuration, `AutoTrack.config`, auto-track.js lines
18-28. -/
structure Config where
  trackClicks : Bool
  trackForms : Bool
  trackScroll : Bool
  trackErrors : Bool
  trackPerformance : Bool
  trackVisibility : Bool
  captureText : Bool
  captureAttributes : Bool
  debounceScroll : Nat
deriving DecidableEq

/-- The default configuration object (all tracking on, debounce 500 ms). -/
def defaultConfig : Config :=
  { trackClicks := true, trackForms := true, trackScroll := true,
    trackErrors := true, trackPerformance := true, trackVisibility := true,
    captureText := true, captureAttributes := true, debounceScroll := 500 }

/-! ## Readiness gate (`start`, lines 33-61)

`avail n` says whether `window.Analytics && window.Analytics.instance` is
truthy at check number `n`: `avail 0` is the immediate check in `start`, and
`avail n` for `n ≥ 1` is the check made by the n-th 50 ms interval tick.
The result triple counts `(initializeTracking calls, error reports,
interval ticks run)`; listeners are attached only inside
`_initializeTracking`, so a run with zero initialization calls attaches no
listener and emits no tracking event. -/

/-- `maxAttempts`, line 42: 100 ticks at 50 ms each, a 5 second budget. -/
def maxAttempts : Nat := 100

/-- One `setInterval` tick (lines 44-55): increment `attempts`, then either
initialize (sink present), report the single timeout error (budget
exhausted), or keep polling. `fuel` bounds the recursion; a faithful run
starts with `fuel = maxAttempts - attempts`, which the `attempts ≥
maxAttempts` branch makes unreachable at zero. -/
def runInterval (avail : Nat → Bool) (attempts fuel : Nat) : Nat × Nat × Nat :=
  match fuel with
  | 0 => (0, 0, 0)
  | fuel' + 1 =>
    let attempts' := attempts + 1
    if avail attempts' then
      (1, 0, 1)
    else if maxAttempts ≤ attempts' then
      (0, 1, 1)
    else
      let r := runInterval avail attempts' fuel'
      (r.1, r.2.1, r.2.2 + 1)

/-- `start` (lines 33-61): check the sink immediately; if present,
initialize at once (zero ticks), otherwise poll on the interval. -/
def start (avail : Nat → Bool) : Nat × Nat × Nat :=
  if avail 0 then (1, 0, 0)
  else runInterval avail 0 maxAttempts

/-! ## Event property bags -/

/-- A scalar (or, for `form_submitted.fields`, a list of `{name, type}`
records) stored in an event property bag. -/
inductive PVal where
  | s : String → PVal
  | n : Int → PVal
  | fieldList : List (String × String) → PVal
deriving DecidableEq

/-- An insertion-ordered property bag, as passed to `Analytics.track`. -/
abbrev Props : Type := List (String × PVal)

/-- The external sink: `window.Analytics.track(eventName, props)`. It is
fire-and-forget but may throw; `Except.error` models a thrown exception. -/
def Track : Type := String → Props → Except String Unit

/-! ## Form tracker (`trackForms`, lines 138-163) -/

/-- One entry of `form.elements`: a form control with its `name` and `type`
DOM properties (empty string models a missing/empty `name`). -/
structure FormField where
  name : String
  type : String
deriving DecidableEq

/-- A form element as seen by the submit listener. -/
structure FormElem where
  id : String
  name : String
  action : String
  method : String
  elements : List FormField
deriving DecidableEq

/-- The field-collection loop, lines 151-159: keep `{name, type}` for every
field with a truthy `name` whose `type` is not `"password"`; values are
never read. -/
def formFields : List FormField → List (String × String)
  | [] => []
  | field :: rest =>
    if field.name != "" && field.type != "password" then
      (field.name, field.type) :: formFields rest
    else
      formFields rest

/-- The `form_submitted` property bag, lines 141-159. -/
def buildFormProps (form : FormElem) : Props :=
  [("formId", .s (if form.id != "" then form.id else "unknown")),
   ("formName", .s (if form.name != "" then form.name else "unknown")),
   ("formAction", .s form.action),
   ("formMethod", .s form.method),
   ("fieldCount", .n form.elements.length),
   ("fields", .fieldList (formFields form.elements))]

/-- The submit listener body (lines 139-162). The source has no try/catch
here: a failure of the sink call propagates out of the listener. -/
def handleSubmit (track : Track) (form : FormElem) : Except String Unit :=
  track "form_submitted" (buildFormProps form)

/-! ## DOM element model -/

/-- What `getXPath`'s sibling loop reads off one entry of
`parentNode.childNodes`: its `nodeType` and its `tagName` (empty for
non-element nodes, whose `tagName` is undefined). -/
structure Sib where
  nodeType : Nat
  tagName : String
deriving DecidableEq

/-- The DOM properties of one element that the descriptor builder and the
listeners read. Empty strings model absent/empty (falsy) string properties;
`className = none` models a non-string `className` (e.g. SVG), `role = none`
a missing `role` attribute, `form = none` an element outside any form
(`some fid` carries the owning form's id). -/
structure ElemData where
  tagName : String
  id : String
  className : Option String
  textContent : String
  dataset : List (String × String)
  name : String
  type : String
  value : String
  role : Option String
  href : String
  target : String
  form : Option String
deriving DecidableEq

/-- A DOM element with its position in the tree: `parent` is
`none` for a detached node, otherwise the parent element together with the
parent's `childNodes` (as `Sib` records) and the element's own index `k`
among them (node identity in the source's `sibling === element` test).
`isBody` marks `document.body`. -/
inductive Elem where
  | node (data : ElemData) (isBody : Bool)
      (parent : Option (Elem × List Sib × Nat))

/-- The element's DOM properties. -/
def Elem.data : Elem → ElemData
  | .node d _ _ => d

/-- Whether the element is `document.body`. -/
def Elem.isBody : Elem → Bool
  | .node _ b _ => b

/-- The element's parent, the parent's child list and the element's index. -/
def Elem.parent : Elem → Option (Elem × List Sib × Nat)
  | .node _ _ p => p

/-- JavaScript's `String.prototype.toLowerCase` (as used on tag names):
lower-case the string character by character. -/
def jsToLower (s : String) : String := ⟨s.data.map Char.toLower⟩

/-! ## Structural path resolver (`getXPath`, lines 349-373) -/

/-- The sibling loop of `getXPath` (lines 361-370): walk the parent's
`childNodes`; on reaching the element itself (index `k`), return the number
`ix` of earlier element-node siblings sharing the element's `tagName`; if
the list ends first, the loop falls through (`none`). -/
def sibSearch (tag : String) : List Sib → Nat → Nat → Option Nat
  | [], _, _ => none
  | _ :: _, 0, ix => some ix
  | sib :: rest, k + 1, ix =>
    sibSearch tag rest k (if sib.nodeType == 1 && sib.tagName == tag then ix + 1 else ix)

/-- `getXPath` (lines 349-373): id shortcut first, then the fixed
`document.body` path, then recursion on the parent with a 1-based
same-tag-sibling index; a detached element (no parent, hence an empty
sibling list) yields `""`. -/
def getXPath : Elem → String
  | .node d isBody parent =>
    if d.id != "" then
      "//*[@id=\"" ++ d.id ++ "\"]"
    else if isBody then
      "/html/body"
    else
      match parent with
      | none => ""
      | some (p, sibs, k) =>
        match sibSearch d.tagName sibs k 0 with
        | some ix =>
          getXPath p ++ "/" ++ jsToLower d.tagName ++ "[" ++ toString (ix + 1) ++ "]"
        | none => ""

/-! ## Descriptor builder (`getElementProps`, lines 292-344) -/

/-- The `data-ga-id` ancestor climb, lines 315-324: starting at the element,
walk `parentElement` while the depth budget (5) lasts; stop at the first
truthy `dataset.gaId`. -/
def findGaId : Elem → Nat → Option String
  | _, 0 => none
  | e, depth + 1 =>
    match e.data.dataset.lookup "gaId" with
    | some v =>
      if v != "" then some v
      else
        match e.parent with
        | some (p, _, _) => findGaId p depth
        | none => none
    | none =>
      match e.parent with
      | some (p, _, _) => findGaId p depth
      | none => none

/-- Splitting accumulator walk behind `jsSplit`: cut the character list at
every occurrence of `sep`, keeping empty pieces, like JavaScript
`split(sep)` with a one-character separator. -/
def jsSplitChars (sep : Char) : List Char → List Char → List String
  | [], acc => [⟨acc.reverse⟩]
  | c :: rest, acc =>
    if c == sep then ⟨acc.reverse⟩ :: jsSplitChars sep rest []
    else jsSplitChars sep rest (c :: acc)

/-- JavaScript `String.prototype.split` with a one-character separator, as
in `className.split(' ')`: `""` yields `[""]`, and adjacent separators
yield empty pieces. -/
def jsSplit (s : String) (sep : Char) : List String := jsSplitChars sep s.data []

/-- JavaScript `String.prototype.trim`: strip whitespace from both ends. -/
def jsTrim (s : String) : String :=
  ⟨((s.data.dropWhile Char.isWhitespace).reverse.dropWhile Char.isWhitespace).reverse⟩

/-- Lines 299-301: `elementId` iff the element has a truthy id. -/
def idProps (d : ElemData) : Props :=
  if d.id != "" then [("elementId", .s d.id)] else []

/-- Lines 304-306: `elementClasses` iff `className` is a truthy string; the
value is `className.split(' ').filter(c => c).join(' ')`. -/
def classProps (d : ElemData) : Props :=
  match d.className with
  | some c =>
    if c != "" then
      [("elementClasses",
        .s (String.intercalate " " ((jsSplit c ' ').filter (fun x => x != ""))))]
    else []
  | none => []

/-- Lines 309-311: `elementText` iff `captureText` is on and the element has
truthy text content; trimmed and cut to 100 characters. -/
def textProps (config : Config) (d : ElemData) : Props :=
  if config.captureText && d.textContent != "" then
    [("elementText", .s ((jsTrim d.textContent).take 100))]
  else []

/-- Lines 315-324: `gaId` from the ancestor climb, if found. -/
def gaProps (element : Elem) : Props :=
  match findGaId element 5 with
  | some v => [("gaId", .s v)]
  | none => []

/-- Lines 327-331: every `data-*` attribute copied under a `data_` key, iff
`captureAttributes` is on. -/
def dataProps (config : Config) (d : ElemData) : Props :=
  if config.captureAttributes then
    d.dataset.map (fun kv => ("data_" ++ kv.1, PVal.s kv.2))
  else []

/-- Line 334: `elementName` iff the element has a truthy name. -/
def nameProps (d : ElemData) : Props :=
  if d.name != "" then [("elementName", .s d.name)] else []

/-- Line 335: `inputType` iff the element has a truthy type. -/
def typeProps (d : ElemData) : Props :=
  if d.type != "" then [("inputType", .s d.type)] else []

/-- Lines 336-338: `elementValue` iff the value is truthy and the type is
not `"password"`; cut to 50 characters. -/
def valueProps (d : ElemData) : Props :=
  if d.value != "" && d.type != "password" then
    [("elementValue", .s (d.value.take 50))]
  else []

/-- `getElementProps` (lines 292-344): the element descriptor, with its
keys in source insertion order (the source assigns each key at most once,
so sequential object assignment is concatenation). `page` stands for
`window.location.pathname`. -/
def getElementProps (config : Config) (page : String) (element : Elem) : Props :=
  let d := element.data
  [("elementType", .s (jsToLower d.tagName)), ("page", .s page)] ++
  idProps d ++ classProps d ++ textProps config d ++ gaProps element ++
  dataProps config d ++ nameProps d ++ typeProps d ++ valueProps d ++
  [("xpath", .s (getXPath element))]

/-! ## Click tracker (`trackClicks`, lines 108-133) -/

/-- The pure part of the click listener body (lines 111-126): build the
descriptor, then classify the element, attaching `href`/`target` for
anchors. -/
def clickEvent (config : Config) (page : String) (element : Elem) : String × Props :=
  let props := getElementProps config page element
  let tagName := jsToLower element.data.tagName
  if tagName == "button" then
    ("button_clicked", props)
  else if tagName == "a" then
    ("link_clicked",
      props ++ [("href", .s element.data.href), ("target", .s element.data.target)])
  else if element.data.role == some "button" then
    ("button_clicked", props)
  else
    ("element_clicked", props)

/-- The click listener body (lines 109-132): the whole body sits inside
try/catch, so an error raised anywhere in it — here, by the sink call — is
caught and logged, never propagated. -/
def handleClick (track : Track) (config : Config) (page : String) (element : Elem) :
    Except String Unit :=
  match (let ev := clickEvent config page element; track ev.1 ev.2) with
  | .ok _ => .ok ()
  | .error _ => .ok ()

/-! ## Focus tracker (`trackInputFocus`, lines 243-262) -/

/-- `element.id || element.name || 'unknown'`, line 249. -/
def focusFieldId (element : Elem) : String :=
  if element.data.id != "" then element.data.id
  else if element.data.name != "" then element.data.name
  else "unknown"

/-- The `form_field_focused` property bag, lines 253-258
(`element.form?.id || 'unknown'`). -/
def focusProps (element : Elem) : Props :=
  [("fieldId", .s (focusFieldId element)),
   ("fieldName", .s element.data.name),
   ("fieldType", .s element.data.type),
   ("formId", .s (match element.data.form with
                  | some fid => if fid != "" then fid else "unknown"
                  | none => "unknown"))]

/-- The focus listener body as a pure step (lines 246-261): on a focus event
for an input/textarea/select whose field id is not yet in the tracked set,
add it and emit one `form_field_focused` event; otherwise emit nothing. -/
def focusStep (trackedFields : List String) (element : Elem) :
    List String × List (String × Props) :=
  if ["INPUT", "TEXTAREA", "SELECT"].contains element.data.tagName then
    let fieldId := focusFieldId element
    if trackedFields.contains fieldId then
      (trackedFields, [])
    else
      (trackedFields ++ [fieldId], [("form_field_focused", focusProps element)])
  else
    (trackedFields, [])

/-! ## Tracker wiring (`_initializeTracking`, lines 66-103) -/

/-- Which listener modules `_initializeTracking` wires, in source order:
each of the six toggles gates its tracker, and `trackInputFocus` (line 100)
is called unconditionally, outside every toggle. -/
def initializeTracking (config : Config) : List String :=
  (if config.trackPerformance then ["performance"] else []) ++
  (if config.trackClicks then ["clicks"] else []) ++
  (if config.trackForms then ["forms"] else []) ++
  (if config.trackScroll then ["scroll"] else []) ++
  (if config.trackErrors then ["errors"] else []) ++
  (if config.trackVisibility then ["visibility"] else []) ++
  ["inputFocus"]

/-! ## Scroll tracker (`trackScroll`, lines 168-198)

The percentage computation `Math.round((scrollTop / docHeight) * 100)` is
done on IEEE doubles and can produce `NaN` (0/0) or `Infinity` (positive/0),
so the value is modelled by `JSNum`; the finite values arising here are
exact rationals, which doubles represent faithfully for the page sizes of
interest, so the `fin` case carries a rational. -/

/-- A JavaScript number as it appears in the scroll computation: `NaN`,
the two infinities, or a finite value. -/
inductive JSNum where
  | nan
  | inf
  | neginf
  | fin : ℚ → JSNum
deriving DecidableEq

/-- JavaScript division of two finite numbers: division by zero yields
`NaN` for `0/0` and a signed infinity otherwise. -/
def jsDiv (a b : ℚ) : JSNum :=
  if b = 0 then
    if a = 0 then .nan else if 0 < a then .inf else .neginf
  else .fin (a / b)

/-- JavaScript multiplication of a number by a finite constant (here 100):
`NaN` is absorbing, an infinity keeps or flips its sign by the constant's
sign and becomes `NaN` when the constant is zero. -/
def jsMulFin (x : JSNum) (c : ℚ) : JSNum :=
  match x with
  | .nan => .nan
  | .inf => if 0 < c then .inf else if c = 0 then .nan else .neginf
  | .neginf => if 0 < c then .neginf else if c = 0 then .nan else .inf
  | .fin q => .fin (q * c)

/-- `Math.round`: round half toward positive infinity on finite values,
identity on `NaN` and the infinities. -/
def jsRound (x : JSNum) : JSNum :=
  match x with
  | .fin q => .fin ((⌊q + 1 / 2⌋ : Int) : ℚ)
  | other => other

/-- The JavaScript `<` comparison: false whenever either side is `NaN`. -/
def jsLt (a b : JSNum) : Bool :=
  match a, b with
  | .nan, _ => false
  | _, .nan => false
  | .neginf, .neginf => false
  | .neginf, _ => true
  | .inf, _ => false
  | .fin _, .inf => true
  | .fin _, .neginf => false
  | .fin p, .fin q => decide (p < q)

/-- The JavaScript `<=` comparison: false whenever either side is `NaN`. -/
def jsLe (a b : JSNum) : Bool :=
  match a, b with
  | .nan, _ => false
  | _, .nan => false
  | .neginf, _ => true
  | _, .inf => true
  | .inf, _ => false
  | .fin p, .fin q => decide (p ≤ q)
  | .fin _, .neginf => false

/-- The milestone list, line 171. -/
def milestones : List ℚ := [25, 50, 75, 90, 100]

/-- The closure state of `trackScroll`: the running maximum percentage
(`maxScroll`, initially the number 0) and the `tracked` set of milestones,
modelled as its insertion-ordered element list. -/
structure ScrollState where
  maxScroll : JSNum
  tracked : List ℚ
deriving DecidableEq

/-- The `milestones.forEach` loop, lines 183-190: emit (and add to
`tracked`) each milestone `≤ scrollPercent` not already tracked, in list
order. Returns the updated tracked list and the emitted `scroll_depth`
depth values in emission order. -/
def milestoneLoop (scrollPercent : JSNum) (tracked : List ℚ) :
    List ℚ → List ℚ × List ℚ
  | [] => (tracked, [])
  | m :: rest =>
    if jsLe (.fin m) scrollPercent && !tracked.contains m then
      let r := milestoneLoop scrollPercent (tracked ++ [m]) rest
      (r.1, m :: r.2)
    else
      milestoneLoop scrollPercent tracked rest

/-- The percentage computed at lines 175-177 from `scrollTop`,
`document.documentElement.scrollHeight` and `window.innerHeight`:
`Math.round((scrollTop / (scrollHeight - innerHeight)) * 100)`. -/
def scrollPercentOf (scrollTop scrollHeight innerHeight : ℚ) : JSNum :=
  jsRound (jsMulFin (jsDiv scrollTop (scrollHeight - innerHeight)) 100)

/-- One debounced `trackScrollDepth` tick (lines 174-192): if the computed
percentage exceeds the running maximum, update the maximum and run the
milestone loop; otherwise nothing changes and nothing is emitted. -/
def trackScrollDepth (st : ScrollState) (scrollTop scrollHeight innerHeight : ℚ) :
    ScrollState × List ℚ :=
  let scrollPercent := scrollPercentOf scrollTop scrollHeight innerHeight
  if jsLt st.maxScroll scrollPercent then
    let r := milestoneLoop scrollPercent st.tracked milestones
    ({ maxScroll := scrollPercent, tracked := r.1 }, r.2)
  else
    (st, [])

/-- The initial closure state, lines 169-172. -/
def initialScrollState : ScrollState := { maxScroll := .fin 0, tracked := [] }

/-- A session: fold `trackScrollDepth` over a list of debounce-tick inputs
`(scrollTop, scrollHeight, innerHeight)`, concatenating emissions. -/
def runScroll : ScrollState → List (ℚ × ℚ × ℚ) → ScrollState × List ℚ
  | st, [] => (st, [])
  | st, (s, h, w) :: rest =>
    let r := trackScrollDepth st s h w
    let r' := runScroll r.1 rest
    (r'.1, r.2 ++ r'.2)

/-- Invariant relating the scroll closure state's components: the running
maximum is never `NaN`, the tracked list is duplicate-free, and it holds
exactly the milestones that are `≤` the running maximum. -/
def ScrollInv (st : ScrollState) : Prop :=
  st.maxScroll ≠ .nan ∧ st.tracked.Nodup ∧
  ∀ m, m ∈ st.tracked ↔ (m ∈ milestones ∧ jsLe (.fin m) st.maxScroll = true)

/-! ## Concrete fixtures used by witnesses and counterexamples -/

/-- A configuration with every toggle off. -/
def allOffConfig : Config :=
  { trackClicks := false, trackForms := false, trackScroll := false,
    trackErrors := false, trackPerformance := false, trackVisibility := false,
    captureText := false, captureAttributes := false, debounceScroll := 500 }

/-- A div whose `className` contains a tab between two class tokens. -/
def exTabElem : Elem :=
  .node ⟨"DIV", "", some "a\tb", "", [], "", "", "", none, "", "", none⟩ false none

/-- A div whose `className` is a single space character. -/
def exSpaceElem : Elem :=
  .node ⟨"DIV", "", some " ", "", [], "", "", "", none, "", "", none⟩ false none

/-- A button whose `className` has a run of two spaces between tokens. -/
def exDoubleSpaceElem : Elem :=
  .node ⟨"BUTTON", "", some "btn  primary", "", [], "", "", "", none, "", "", none⟩ false none

/-- A bare div: no id, no classes, no role, detached. -/
def exPlainDiv : Elem :=
  .node ⟨"DIV", "", none, "", [], "", "", "", none, "", "", none⟩ false none

/-- A div carrying `role="button"`. -/
def exRoleBtnDiv : Elem :=
  .node ⟨"DIV", "", none, "", [], "", "", "", some "button", "", "", none⟩ false none

/-- A button element carrying an unrelated `role` attribute. -/
def exButtonElem : Elem :=
  .node ⟨"BUTTON", "", none, "Go", [], "", "", "", some "link", "", "", none⟩ false none

/-- An anchor carrying `role="button"`. -/
def exAnchorRoleBtn : Elem :=
  .node ⟨"A", "", none, "Go", [], "", "", "", some "button", "/home", "_blank", none⟩ false none

/-- A password input with a value, inside the form with id `login`. -/
def exPwInput : Elem :=
  .node ⟨"INPUT", "", none, "", [], "pw", "password", "hunter2", none, "", "", some "login"⟩
    false none

/-- A text-like email input inside the form with id `login`. -/
def exTextInput : Elem :=
  .node ⟨"INPUT", "", none, "", [], "email", "email", "", none, "", "", some "login"⟩
    false none

/-- A login form with a text field, an email field, a password field and an
unnamed field. -/
def exLoginForm : FormElem :=
  ⟨"login", "loginForm", "/submit", "post",
   [⟨"name", "text"⟩, ⟨"email", "email"⟩, ⟨"pw", "password"⟩, ⟨"", "text"⟩]⟩

/-- The root html element of the fixture tree. -/
def exRootElem : Elem :=
  .node ⟨"HTML", "", none, "", [], "", "", "", none, "", "", none⟩ false none

/-- The body element of the fixture tree. -/
def exBodyElem : Elem :=
  .node ⟨"BODY", "", none, "", [], "", "", "", none, "", "", none⟩ true
    (some (exRootElem, [⟨1, "BODY"⟩], 0))

/-- DOM data of a div with neither id nor body status. -/
def exChildData : ElemData :=
  ⟨"DIV", "", none, "", [], "", "", "", none, "", "", none⟩

/-- The body's child nodes: a text node, two divs and a span; the second
div (index 3) is the element of interest. -/
def exChildSibs : List Sib :=
  [⟨3, ""⟩, ⟨1, "DIV"⟩, ⟨1, "SPAN"⟩, ⟨1, "DIV"⟩]

/-- The second div under the body (one earlier same-tag sibling). -/
def exChildDiv : Elem := .node exChildData false (some (exBodyElem, exChildSibs, 3))

/-- A span with id `x`, sitting deep in the fixture tree. -/
def exIdElem : Elem :=
  .node ⟨"SPAN", "x", none, "", [], "", "", "", none, "", "", none⟩ false
    (some (exChildDiv, [⟨1, "SPAN"⟩], 0))

/-- DOM data of a detached paragraph. -/
def exDetachedData : ElemData :=
  ⟨"P", "", none, "", [], "", "", "", none, "", "", none⟩

/-! ## Theorems -/

/-- C10: the focus tracker is wired unconditionally — `"inputFocus"` is in
the wired-tracker list for every configuration; with all six toggles off it
is the only wired tracker, and the wired focus listener still emits a
`form_field_focused` event on a first focus of an input field. -/
theorem C10_focus_always_wired :
    (∀ config : Config, "inputFocus" ∈ initializeTracking config) ∧
    initializeTracking allOffConfig = ["inputFocus"] ∧
    focusStep [] exTextInput =
      (["email"],
       [("form_field_focused",
         [("fieldId", .s "email"), ("fieldName", .s "email"),
          ("fieldType", .s "email"), ("formId", .s "login")])]) := by
  refine ⟨fun config => ?_, rfl, rfl⟩
  unfold initializeTracking
  simp [List.mem_append]

/-- C1 counterexample: the claim says every listener body catches errors
raised while handling an event, but the submit listener has no try/catch —
with a sink whose `track` throws, the exception propagates out of
`handleSubmit` on a concrete form submission. -/
theorem C1_counterexample :
    handleSubmit (fun _ _ => Except.error "sink failure") exLoginForm =
      Except.error "sink failure" := rfl

/-- C1 amended: only the click listener body is a fault boundary — it
returns normally for every sink and every element — while the submit
listener propagates any exception thrown by the sink's `track` call. -/
theorem C1_amended_click_fault_boundary :
    (∀ (track : Track) (config : Config) (page : String) (element : Elem),
       handleClick track config page element = Except.ok ()) ∧
    (∀ (form : FormElem) (msg : String),
       handleSubmit (fun _ _ => Except.error msg) form = Except.error msg) := by
  constructor
  · intro track config page element
    unfold handleClick
    split <;> rfl
  · intro form msg
    rfl

/-- Timeout run of the polling interval: if the sink is absent at every
attempt up to the budget, the interval runs its full fuel, initializes
nothing and reports exactly one failure. -/
theorem runInterval_timeout (avail : Nat → Bool) (attempts fuel : Nat)
    (hsum : attempts + fuel = maxAttempts)
    (hlt : attempts < maxAttempts)
    (hfail : ∀ n, n ≤ maxAttempts → avail n = false) :
    runInterval avail attempts fuel = (0, 1, fuel) := by
  induction fuel generalizing attempts with
  | zero => omega
  | succ f ih =>
    rw [runInterval]
    have h1 : avail (attempts + 1) = false := hfail _ (by omega)
    simp only [h1, Bool.false_eq_true, if_false]
    by_cases h2 : maxAttempts ≤ attempts + 1
    · have hf0 : f = 0 := by unfold maxAttempts at *; omega
      simp [h2, hf0]
    · have hrec := ih (attempts + 1) (by omega) (by omega)
      simp [h2, hrec]

/-- Successful run of the polling interval: if the sink first becomes
available at attempt `k` within the budget, the interval stops after
exactly `k - attempts` ticks, initializes once and reports no failure. -/
theorem runInterval_success (avail : Nat → Bool) (attempts fuel k : Nat)
    (hsum : attempts + fuel = maxAttempts)
    (hk1 : attempts < k) (hk2 : k ≤ maxAttempts)
    (havail : avail k = true)
    (hbefore : ∀ j, attempts < j → j < k → avail j = false) :
    runInterval avail attempts fuel = (1, 0, k - attempts) := by
  induction fuel generalizing attempts with
  | zero => omega
  | succ f ih =>
    rw [runInterval]
    by_cases hk : attempts + 1 = k
    · simp [hk, havail]
      omega
    · have h1 : avail (attempts + 1) = false := hbefore _ (by omega) (by omega)
      simp only [h1, Bool.false_eq_true, if_false]
      have h2 : ¬ maxAttempts ≤ attempts + 1 := by omega
      have hrec := ih (attempts + 1) (by omega) (by omega) (fun j hj1 hj2 => hbefore j (by omega) hj2)
      simp [h2, hrec]
      omega

/-- C3: readiness gate. If the sink is absent at the immediate check and on
all 100 poll attempts, `start` makes zero initialization calls (so no
listener is attached and no tracking event can be emitted), reports exactly
one failure, and runs all 100 ticks. If instead the sink first becomes
available at attempt `k ≤ 100`, polling stops right at tick `k`,
initialization runs exactly once, and no failure is reported. -/
theorem C3_readiness_gate :
    (∀ avail : Nat → Bool,
       (∀ n, n ≤ maxAttempts → avail n = false) →
       start avail = (0, 1, maxAttempts)) ∧
    (∀ (avail : Nat → Bool) (k : Nat),
       1 ≤ k → k ≤ maxAttempts → avail k = true →
       (∀ j, j < k → avail j = false) →
       start avail = (1, 0, k)) := by
  constructor
  · intro avail hfail
    unfold start
    have h0 : avail 0 = false := hfail 0 (by omega)
    simp only [h0, Bool.false_eq_true, if_false]
    exact runInterval_timeout avail 0 maxAttempts rfl (by unfold maxAttempts; omega) hfail
  · intro avail k hk1 hk2 havail hbefore
    unfold start
    have h0 : avail 0 = false := hbefore 0 (by omega)
    simp only [h0, Bool.false_eq_true, if_false]
    have := runInterval_success avail 0 maxAttempts k rfl (by omega) hk2 havail
      (fun j _ hj2 => hbefore j hj2)
    simpa using this

/-- C3 witness: a sink that never appears yields `(0, 1, 100)`; a sink
first appearing at attempt 3 yields `(1, 0, 3)`. -/
theorem C3_witness :
    start (fun _ => false) = (0, 1, maxAttempts) ∧
    start (fun n => n == 3) = (1, 0, 3) :=
  ⟨C3_readiness_gate.1 (fun _ => false) (fun _ _ => rfl),
   C3_readiness_gate.2 (fun n => n == 3) 3 (by omega) (by unfold maxAttempts; omega) rfl
     (by intro j hj; simp only [beq_eq_false_iff_ne]; omega)⟩

/-- C6: click classification follows the source's priority order — a
button tag always yields `button_clicked` (whatever `role` says); an anchor
tag always yields `link_clicked` with `href` and `target` appended to the
descriptor (even when `role="button"`); a `role` attribute equal to
`"button"` yields `button_clicked` only for non-button non-anchor tags; and
everything else yields `element_clicked`. -/
theorem C6_click_classification :
    ∀ (config : Config) (page : String) (element : Elem),
      (jsToLower element.data.tagName = "button" →
        (clickEvent config page element).1 = "button_clicked") ∧
      (jsToLower element.data.tagName = "a" →
        (clickEvent config page element).1 = "link_clicked" ∧
        ("href", PVal.s element.data.href) ∈ (clickEvent config page element).2 ∧
        ("target", PVal.s element.data.target) ∈ (clickEvent config page element).2) ∧
      (jsToLower element.data.tagName ≠ "button" → jsToLower element.data.tagName ≠ "a" →
        element.data.role = some "button" →
        (clickEvent config page element).1 = "button_clicked") ∧
      (jsToLower element.data.tagName ≠ "button" → jsToLower element.data.tagName ≠ "a" →
        element.data.role ≠ some "button" →
        (clickEvent config page element).1 = "element_clicked") := by
  intro config page element
  refine ⟨fun h => ?_, fun h => ?_, fun h1 h2 h3 => ?_, fun h1 h2 h3 => ?_⟩
  · simp [clickEvent, h]
  · have hba : ("a" : String) ≠ "button" := by decide
    refine ⟨by simp [clickEvent, h, hba], ?_, ?_⟩ <;> simp [clickEvent, h, hba]
  · simp [clickEvent, h1, h2, h3]
  · simp [clickEvent, h1, h2, h3]

/-- C6 witness: the concrete fixtures — an anchor with `role="button"` is
`link_clicked`, a button with an unrelated role is `button_clicked`, a div
with `role="button"` is `button_clicked`, and a bare div is
`element_clicked`. -/
theorem C6_witness :
    (clickEvent defaultConfig "/p" exAnchorRoleBtn).1 = "link_clicked" ∧
    (clickEvent defaultConfig "/p" exButtonElem).1 = "button_clicked" ∧
    (clickEvent defaultConfig "/p" exRoleBtnDiv).1 = "button_clicked" ∧
    (clickEvent defaultConfig "/p" exPlainDiv).1 = "element_clicked" :=
  ⟨((C6_click_classification defaultConfig "/p" exAnchorRoleBtn).2.1 (by decide)).1,
   (C6_click_classification defaultConfig "/p" exButtonElem).1 (by decide),
   (C6_click_classification defaultConfig "/p" exRoleBtnDiv).2.2.1
     (by decide) (by decide) (by decide),
   (C6_click_classification defaultConfig "/p" exPlainDiv).2.2.2
     (by decide) (by decide) (by decide)⟩

/-- No `data_`-prefixed descriptor key can collide with `elementValue`. -/
theorem dataKey_ne_elementValue (x : String) : "data_" ++ x ≠ "elementValue" := by
  intro hEq
  have h2 := congrArg String.data hEq
  rw [String.data_append] at h2
  simp at h2

/-- The field-collection loop keeps exactly the named non-password fields,
in order, as `(name, type)` pairs. -/
theorem formFields_eq (l : List FormField) :
    formFields l =
      (l.filter (fun f => f.name != "" && f.type != "password")).map
        (fun f => (f.name, f.type)) := by
  induction l with
  | nil => rfl
  | cons f rest ih =>
    rw [formFields]
    by_cases h : (f.name != "" && f.type != "password") = true
    · simp [h, ih]
    · simp [h, ih, List.filter_cons_of_neg]

/-- C2: password values are never captured — a descriptor built for an
element of type `"password"` has no `elementValue` key at all, and the
`fields` list of `form_submitted` is exactly the ordered `(name, type)`
pairs of the named non-password fields (one entry per such field, no value
component), so no entry of it has type `"password"`. -/
theorem C2_password_never_captured :
    (∀ (config : Config) (page : String) (element : Elem),
       element.data.type = "password" →
       "elementValue" ∉ (getElementProps config page element).map Prod.fst) ∧
    (∀ form : FormElem,
       formFields form.elements =
         (form.elements.filter (fun f => f.name != "" && f.type != "password")).map
           (fun f => (f.name, f.type)) ∧
       ∀ e ∈ formFields form.elements, e.2 ≠ "password") := by
  constructor
  · intro config page element h
    simp only [getElementProps, List.map_append, List.mem_append, not_or]
    repeat' apply And.intro
    all_goals
      try simp only [idProps, classProps, textProps, gaProps, dataProps, nameProps,
                     typeProps, valueProps, h]
    all_goals repeat' split
    all_goals simp_all [dataKey_ne_elementValue]
  · intro form
    refine ⟨formFields_eq form.elements, ?_⟩
    intro e he
    rw [formFields_eq] at he
    simp only [List.mem_map, List.mem_filter] at he
    obtain ⟨f, ⟨hmem, hf⟩, hfe⟩ := he
    rw [Bool.and_eq_true] at hf
    subst hfe
    simpa [bne_iff_ne] using hf.2

/-- C2 witness: the concrete password input yields a descriptor without
`elementValue`, and the concrete login form keeps its text field entry,
whose type is not `"password"`. -/
theorem C2_witness :
    exPwInput.data.type = "password" ∧
    "elementValue" ∉ (getElementProps defaultConfig "/p" exPwInput).map Prod.fst ∧
    ("name", "text") ∈ formFields exLoginForm.elements ∧
    (("name", "text") : String × String).2 ≠ "password" :=
  ⟨rfl, C2_password_never_captured.1 defaultConfig "/p" exPwInput rfl,
   by decide,
   (C2_password_never_captured.2 exLoginForm).2 ("name", "text") (by decide)⟩

/-- C8 counterexample: the claim says whitespace runs including tabs are
normalized to single spaces and that an all-whitespace class list yields no
`elementClasses` key. On the concrete element whose `className` is
`"a\tb"` the descriptor carries `"a\tb"` unchanged (not the claimed
`"a b"`), and on the element whose `className` is a single space the key is
present (with empty value) instead of omitted. -/
theorem C8_counterexample :
    ("elementClasses", PVal.s "a\tb") ∈ getElementProps defaultConfig "/" exTabElem ∧
    ("elementClasses", PVal.s "a b") ∉ getElementProps defaultConfig "/" exTabElem ∧
    "a\tb" ≠ "a b" ∧
    ("elementClasses", PVal.s "") ∈ getElementProps defaultConfig "/" exSpaceElem := by
  refine ⟨by decide, by decide, by decide, by decide⟩

/-- No `data_`-prefixed descriptor key can collide with `elementClasses`. -/
theorem dataKey_ne_elementClasses (x : String) : "data_" ++ x ≠ "elementClasses" := by
  intro hEq
  have h2 := congrArg String.data hEq
  rw [String.data_append] at h2
  simp at h2

/-- C8 amended: for every element whose `className` is a nonempty string,
the descriptor carries `elementClasses` whose value is the class list split
on single space characters with empty pieces dropped and rejoined by single
spaces — so runs of spaces collapse, but tabs and newlines are not
separators and survive inside tokens, and an all-space `className` yields
the key with empty value; the key is omitted only when `className` is
empty or not a string. Concretely, `"btn  primary"` becomes
`"btn primary"` while `"a\tb"` stays `"a\tb"`. -/
theorem C8_amended_classes :
    (∀ (config : Config) (page : String) (element : Elem) (c : String),
       element.data.className = some c → c ≠ "" →
       ("elementClasses",
         PVal.s (String.intercalate " " ((jsSplit c ' ').filter (fun x => x != "")))) ∈
         getElementProps config page element) ∧
    (∀ (config : Config) (page : String) (element : Elem),
       (element.data.className = none ∨ element.data.className = some "") →
       "elementClasses" ∉ (getElementProps config page element).map Prod.fst) ∧
    ("elementClasses", PVal.s "btn primary") ∈
      getElementProps defaultConfig "/" exDoubleSpaceElem ∧
    ("elementClasses", PVal.s "a\tb") ∈ getElementProps defaultConfig "/" exTabElem := by
  refine ⟨?_, ?_, by decide, by decide⟩
  · intro config page element c hc hne
    simp only [getElementProps, List.mem_append]
    have h : ("elementClasses",
        PVal.s (String.intercalate " " ((jsSplit c ' ').filter (fun x => x != "")))) ∈
        classProps element.data := by
      simp [classProps, hc, hne]
    tauto
  · intro config page element hc
    simp only [getElementProps, List.map_append, List.mem_append, not_or]
    repeat' apply And.intro
    all_goals
      try simp only [idProps, classProps, textProps, gaProps, dataProps, nameProps,
                     typeProps, valueProps]
    all_goals repeat' split
    all_goals simp_all [dataKey_ne_elementClasses]

/-- C8 witness: the amended statement applied to the tab-classed element
and to a class-less element. -/
theorem C8_witness :
    ("elementClasses",
      PVal.s (String.intercalate " " ((jsSplit "a\tb" ' ').filter (fun x => x != "")))) ∈
      getElementProps defaultConfig "/" exTabElem ∧
    "elementClasses" ∉ (getElementProps defaultConfig "/" exPlainDiv).map Prod.fst :=
  ⟨C8_amended_classes.1 defaultConfig "/" exTabElem "a\tb" rfl (by decide),
   C8_amended_classes.2.1 defaultConfig "/" exPlainDiv (Or.inl rfl)⟩

/-- When the element's index `k` lies inside the sibling list, the sibling
loop finds it and returns the accumulator plus the count of earlier
element-node siblings with the same tag. -/
theorem sibSearch_found (tag : String) (sibs : List Sib) (k ix : Nat)
    (hk : k < sibs.length) :
    sibSearch tag sibs k ix =
      some (ix + ((sibs.take k).filter
        (fun s => s.nodeType == 1 && s.tagName == tag)).length) := by
  induction sibs generalizing k ix with
  | nil => simp at hk
  | cons s rest ih =>
    cases k with
    | zero => simp [sibSearch]
    | succ q =>
      rw [sibSearch]
      rw [ih q _ (by simpa using hk)]
      by_cases h : (s.nodeType == 1 && s.tagName == tag) = true
      · simp [h, List.filter_cons_of_pos]
        omega
      · simp [h, List.filter_cons_of_neg]

/-- C5: the structural path function — a truthy id always yields the
id-shortcut form, whatever the element's position (so an id anywhere in the
ancestor chain cuts off that branch of the recursion through the fourth
clause); `document.body` (without id) yields the fixed root path; a
detached element yields `""`; an attached id-less non-body element yields
its parent's path followed by `/tagname[k]` with `k` one plus the number of
earlier same-tag element siblings; and the function is deterministic. -/
theorem C5_structural_path :
    (∀ element : Elem, element.data.id ≠ "" →
       getXPath element = "//*[@id=\"" ++ element.data.id ++ "\"]") ∧
    (∀ element : Elem, element.data.id = "" → element.isBody = true →
       getXPath element = "/html/body") ∧
    (∀ d : ElemData, d.id = "" → getXPath (.node d false none) = "") ∧
    (∀ (d : ElemData) (p : Elem) (sibs : List Sib) (k : Nat),
       d.id = "" → k < sibs.length →
       getXPath (.node d false (some (p, sibs, k))) =
         getXPath p ++ "/" ++ jsToLower d.tagName ++ "[" ++
           toString (((sibs.take k).filter
             (fun s => s.nodeType == 1 && s.tagName == d.tagName)).length + 1) ++ "]") ∧
    (∀ e1 e2 : Elem, e1 = e2 → getXPath e1 = getXPath e2) := by
  refine ⟨?_, ?_, ?_, ?_, fun e1 e2 h => congrArg getXPath h⟩
  · intro element h
    obtain ⟨d, b, parent⟩ := element
    rw [getXPath.eq_def]
    simp_all [Elem.data, bne_iff_ne]
  · intro element h hb
    obtain ⟨d, b, parent⟩ := element
    rw [getXPath.eq_def]
    simp_all [Elem.data, Elem.isBody]
  · intro d h
    rw [getXPath]
    simp [h]
  · intro d p sibs k h hk
    rw [getXPath]
    rw [sibSearch_found d.tagName sibs k 0 hk]
    simp [h]

/-- C5 witness: on the fixture tree — the deep span with id `x` gets the id
shortcut, the body gets the root path, a detached paragraph gets `""`, and
the second div under the body gets `/html/body/div[2]`. -/
theorem C5_witness :
    getXPath exIdElem = "//*[@id=\"x\"]" ∧
    getXPath exBodyElem = "/html/body" ∧
    getXPath (.node exDetachedData false none) = "" ∧
    getXPath exChildDiv = "/html/body/div[2]" := by
  refine ⟨?_, ?_, ?_, ?_⟩
  · rw [C5_structural_path.1 exIdElem (by decide)]
    decide
  · exact C5_structural_path.2.1 exBodyElem rfl rfl
  · exact C5_structural_path.2.2.1 exDetachedData rfl
  · rw [show exChildDiv = Elem.node exChildData false (some (exBodyElem, exChildSibs, 3))
        from rfl]
    rw [C5_structural_path.2.2.2.1 exChildData exBodyElem exChildSibs 3 rfl (by decide)]
    decide

/-- A true JavaScript `<` comparison rules out `NaN` on either side. -/
theorem jsLt_ne_nan {a b : JSNum} (h : jsLt a b = true) : a ≠ .nan ∧ b ≠ .nan := by
  cases a <;> cases b <;> simp_all [jsLt]

/-- JavaScript `<=` is reflexive away from `NaN`. -/
theorem jsLe_refl {a : JSNum} (h : a ≠ .nan) : jsLe a a = true := by
  cases a <;> simp_all [jsLe]

/-- A true JavaScript `<` implies the corresponding `<=`. -/
theorem jsLt_to_jsLe {a b : JSNum} (h : jsLt a b = true) : jsLe a b = true := by
  cases a <;> cases b <;> simp_all [jsLt, jsLe]
  exact le_of_lt h

/-- Chaining `<=` with a true `<` keeps `<=`. -/
theorem jsLe_lt_trans {a b c : JSNum} (h1 : jsLe a b = true) (h2 : jsLt b c = true) :
    jsLe a c = true := by
  cases a <;> cases b <;> cases c <;> simp_all [jsLe, jsLt]
  linarith

/-- JavaScript `<=` is transitive on comparable values. -/
theorem jsLe_trans {a b c : JSNum} (h1 : jsLe a b = true) (h2 : jsLe b c = true) :
    jsLe a c = true := by
  cases a <;> cases b <;> cases c <;> simp_all [jsLe]
  linarith

/-- On a duplicate-free milestone list, the milestone loop appends to the
tracked list, and emits, exactly the milestones that are below the new
percentage and not yet tracked, in list order. -/
theorem milestoneLoop_eq (p : JSNum) (tr ms : List ℚ) (hnd : ms.Nodup) :
    milestoneLoop p tr ms =
      (tr ++ ms.filter (fun m => jsLe (.fin m) p && !tr.contains m),
       ms.filter (fun m => jsLe (.fin m) p && !tr.contains m)) := by
  induction ms generalizing tr with
  | nil => simp [milestoneLoop]
  | cons m rest ih =>
    have hm : m ∉ rest := (List.nodup_cons.1 hnd).1
    have hnd2 : rest.Nodup := (List.nodup_cons.1 hnd).2
    rw [milestoneLoop]
    by_cases hc : (jsLe (.fin m) p && !tr.contains m) = true
    · rw [if_pos hc, ih (tr ++ [m]) hnd2]
      have hfilter : rest.filter (fun x => jsLe (.fin x) p && !(tr ++ [m]).contains x)
          = rest.filter (fun x => jsLe (.fin x) p && !tr.contains x) := by
        apply List.filter_congr
        intro x hx
        have hxm : x ≠ m := fun he => hm (he ▸ hx)
        simp [hxm]
      rw [hfilter]
      have hprop : jsLe (JSNum.fin m) p = true ∧ m ∉ tr := by simpa using hc
      simp [List.filter_cons, hprop, List.append_assoc]
    · rw [if_neg hc, ih tr hnd2]
      have hprop : ¬(jsLe (JSNum.fin m) p = true ∧ m ∉ tr) := by
        intro hcontra
        exact hc (by simp [hcontra.1, hcontra.2])
      simp [List.filter_cons, hprop]

/-- A tick whose percentage beats the running maximum updates the maximum
and emits the untracked milestones below it. -/
theorem trackScrollDepth_pos (st : ScrollState) (s h w : ℚ)
    (hc : jsLt st.maxScroll (scrollPercentOf s h w) = true) :
    trackScrollDepth st s h w =
      ({ maxScroll := scrollPercentOf s h w,
         tracked := st.tracked ++ milestones.filter
           (fun m => jsLe (.fin m) (scrollPercentOf s h w) && !st.tracked.contains m) },
       milestones.filter
         (fun m => jsLe (.fin m) (scrollPercentOf s h w) && !st.tracked.contains m)) := by
  unfold trackScrollDepth
  simp only [hc, if_true]
  rw [milestoneLoop_eq _ _ _ (by decide)]

/-- A tick whose percentage does not beat the running maximum (including
the `NaN` case) changes nothing and emits nothing. -/
theorem trackScrollDepth_neg (st : ScrollState) (s h w : ℚ)
    (hc : jsLt st.maxScroll (scrollPercentOf s h w) = false) :
    trackScrollDepth st s h w = (st, []) := by
  unfold trackScrollDepth
  simp [hc]

/-- One tick preserves the scroll invariant, appends its emissions to the
tracked list, and never lowers the running maximum. -/
theorem scrollInv_step (st : ScrollState) (s h w : ℚ) (hinv : ScrollInv st) :
    ScrollInv (trackScrollDepth st s h w).1 ∧
    (trackScrollDepth st s h w).1.tracked = st.tracked ++ (trackScrollDepth st s h w).2 ∧
    jsLe st.maxScroll (trackScrollDepth st s h w).1.maxScroll = true := by
  obtain ⟨hnan, hnd, hmem⟩ := hinv
  by_cases hc : jsLt st.maxScroll (scrollPercentOf s h w) = true
  · rw [trackScrollDepth_pos st s h w hc]
    refine ⟨⟨(jsLt_ne_nan hc).2, ?_, ?_⟩, rfl, jsLt_to_jsLe hc⟩
    · apply List.Nodup.append hnd (List.Nodup.filter _ (by decide))
      intro x hx1 hx2
      have hx3 := List.of_mem_filter hx2
      simp at hx3
      exact hx3.2 hx1
    · intro m
      constructor
      · intro hm
        rcases List.mem_append.1 hm with hm1 | hm2
        · have h2 := (hmem m).1 hm1
          exact ⟨h2.1, jsLe_lt_trans h2.2 hc⟩
        · have h3 := List.of_mem_filter hm2
          simp at h3
          exact ⟨List.mem_of_mem_filter hm2, h3.1⟩
      · rintro ⟨hm1, hm2⟩
        by_cases hin : m ∈ st.tracked
        · exact List.mem_append.2 (Or.inl hin)
        · refine List.mem_append.2 (Or.inr (List.mem_filter.2 ⟨hm1, ?_⟩))
          simp [hm2, hin]
  · rw [trackScrollDepth_neg st s h w (Bool.eq_false_iff.2 hc)]
    exact ⟨⟨hnan, hnd, hmem⟩, by simp, jsLe_refl hnan⟩

/-- A whole session preserves the scroll invariant, appends all emissions
to the tracked list, and never lowers the running maximum. -/
theorem runScroll_spec (st : ScrollState) (inputs : List (ℚ × ℚ × ℚ))
    (hinv : ScrollInv st) :
    ScrollInv (runScroll st inputs).1 ∧
    (runScroll st inputs).1.tracked = st.tracked ++ (runScroll st inputs).2 ∧
    jsLe st.maxScroll (runScroll st inputs).1.maxScroll = true := by
  induction inputs generalizing st with
  | nil => exact ⟨hinv, by simp [runScroll], jsLe_refl hinv.1⟩
  | cons i rest ih =>
    obtain ⟨s, h, w⟩ := i
    have hstep := scrollInv_step st s h w hinv
    have hrest := ih (trackScrollDepth st s h w).1 hstep.1
    refine ⟨hrest.1, ?_, ?_⟩
    · show (runScroll (trackScrollDepth st s h w).1 rest).1.tracked = _
      rw [hrest.2.1, hstep.2.1]
      simp [runScroll, List.append_assoc]
    · exact jsLe_trans hstep.2.2 hrest.2.2

/-- Session runs decompose over list concatenation. -/
theorem runScroll_append (st : ScrollState) (pre post : List (ℚ × ℚ × ℚ)) :
    runScroll st (pre ++ post) =
      ((runScroll (runScroll st pre).1 post).1,
       (runScroll st pre).2 ++ (runScroll (runScroll st pre).1 post).2) := by
  induction pre generalizing st with
  | nil => simp [runScroll]
  | cons i rest ih =>
    obtain ⟨s, h, w⟩ := i
    simp only [List.cons_append, runScroll, List.append_eq]
    rw [ih]
    simp [List.append_assoc]

/-- The initial closure state satisfies the scroll invariant. -/
theorem scrollInv_initial : ScrollInv initialScrollState := by
  refine ⟨by simp [initialScrollState], by simp [initialScrollState], ?_⟩
  intro m
  constructor
  · intro hm
    simp [initialScrollState] at hm
  · rintro ⟨hm1, hm2⟩
    simp [milestones] at hm1
    simp [initialScrollState, jsLe] at hm2
    rcases hm1 with rfl | rfl | rfl | rfl | rfl <;> norm_num at hm2

/-- C4: over every session (any debounce-tick input sequence from the
initial state), the running maximum is non-decreasing under the JavaScript
order, the emitted `scroll_depth` depth list has no duplicate (each
milestone at most once, and the tracked set gains each milestone at most
once since it equals the emission list), and a milestone is emitted during
a run exactly when it lies at or below the running maximum reached, i.e.
on the tick where the maximum first reaches it. -/
theorem C4_scroll_session :
    ∀ pre post : List (ℚ × ℚ × ℚ),
      jsLe (runScroll initialScrollState pre).1.maxScroll
        (runScroll initialScrollState (pre ++ post)).1.maxScroll = true ∧
      (runScroll initialScrollState (pre ++ post)).2.Nodup ∧
      (runScroll initialScrollState (pre ++ post)).1.tracked =
        (runScroll initialScrollState (pre ++ post)).2 ∧
      (∀ m, m ∈ (runScroll initialScrollState (pre ++ post)).2 ↔
        (m ∈ milestones ∧
         jsLe (.fin m) (runScroll initialScrollState (pre ++ post)).1.maxScroll = true)) := by
  intro pre post
  have htot := runScroll_spec initialScrollState (pre ++ post) scrollInv_initial
  have hpre := runScroll_spec initialScrollState pre scrollInv_initial
  have hpost := runScroll_spec (runScroll initialScrollState pre).1 post hpre.1
  have h1 := htot.2.1
  rw [show initialScrollState.tracked = [] from rfl, List.nil_append] at h1
  refine ⟨?_, ?_, ?_, ?_⟩
  · rw [runScroll_append]
    exact hpost.2.2
  · rw [← h1]
    exact htot.1.2.1
  · exact h1
  · intro m
    rw [← h1]
    exact htot.1.2.2 m

/-- The percentage computed for `scrollTop = 720`, `scrollHeight = 2000`,
`innerHeight = 800` is exactly 60. -/
theorem scrollPercent_sample : scrollPercentOf 720 2000 800 = .fin 60 := by
  unfold scrollPercentOf jsDiv jsMulFin jsRound
  norm_num

/-- C7: a first debounce tick that computes 60% emits exactly the two
events depth 25 then depth 50, in that order, and none of 75/90/100; in
general a tick that beats the running maximum emits precisely the
not-yet-tracked milestones at or below the new percentage, and every
emission list of a tick is strictly ascending. -/
theorem C7_scroll_jump_emissions :
    trackScrollDepth initialScrollState 720 2000 800 =
      ({ maxScroll := .fin 60, tracked := [25, 50] }, [25, 50]) ∧
    (∀ (st : ScrollState) (s h w : ℚ),
       jsLt st.maxScroll (scrollPercentOf s h w) = true →
       (trackScrollDepth st s h w).2 =
         milestones.filter
           (fun m => jsLe (.fin m) (scrollPercentOf s h w) && !st.tracked.contains m)) ∧
    (∀ (st : ScrollState) (s h w : ℚ),
       (trackScrollDepth st s h w).2.Pairwise (· < ·)) := by
  refine ⟨?_, ?_, ?_⟩
  · rw [trackScrollDepth_pos initialScrollState 720 2000 800
        (by rw [scrollPercent_sample]; decide)]
    rw [scrollPercent_sample]
    decide
  · intro st s h w hc
    rw [trackScrollDepth_pos st s h w hc]
  · intro st s h w
    by_cases hc : jsLt st.maxScroll (scrollPercentOf s h w) = true
    · rw [trackScrollDepth_pos st s h w hc]
      exact List.Pairwise.sublist (List.filter_sublist _) (by decide)
    · rw [trackScrollDepth_neg st s h w (Bool.eq_false_iff.2 hc)]
      simp

/-- C7 witness: the general tick statement applied to the concrete
0-to-60 jump. -/
theorem C7_witness :
    jsLt initialScrollState.maxScroll (scrollPercentOf 720 2000 800) = true ∧
    (trackScrollDepth initialScrollState 720 2000 800).2 =
      milestones.filter
        (fun m => jsLe (.fin m) (scrollPercentOf 720 2000 800) &&
          !initialScrollState.tracked.contains m) :=
  ⟨by rw [scrollPercent_sample]; decide,
   C7_scroll_jump_emissions.2.1 initialScrollState 720 2000 800
     (by rw [scrollPercent_sample]; decide)⟩

/-- C9: the percentage computation divides by the difference of
`scrollHeight` and `innerHeight` with no zero guard. When they are equal:
a zero `scrollTop` gives `NaN`, and the tick emits nothing because the
comparison of `NaN` against the maximum is false; a positive `scrollTop`
gives `Infinity`, and a tick from any finite running maximum emits every
milestone not yet tracked (all five from a fresh state). -/
theorem C9_unguarded_division :
    (∀ h : ℚ, scrollPercentOf 0 h h = .nan) ∧
    (∀ (s h : ℚ), 0 < s → scrollPercentOf s h h = .inf) ∧
    (∀ (st : ScrollState) (h : ℚ), trackScrollDepth st 0 h h = (st, [])) ∧
    (∀ (st : ScrollState) (s h q : ℚ), 0 < s → st.maxScroll = .fin q →
       trackScrollDepth st s h h =
         ({ maxScroll := .inf,
            tracked := st.tracked ++
              milestones.filter (fun m => !st.tracked.contains m) },
          milestones.filter (fun m => !st.tracked.contains m))) := by
  have hnan : ∀ h : ℚ, scrollPercentOf 0 h h = .nan := by
    intro h
    simp [scrollPercentOf, jsDiv, jsMulFin, jsRound, sub_self]
  have hinf : ∀ (s h : ℚ), 0 < s → scrollPercentOf s h h = .inf := by
    intro s h hs
    simp [scrollPercentOf, jsDiv, jsMulFin, jsRound, sub_self, hs, hs.ne.symm]
  refine ⟨hnan, hinf, ?_, ?_⟩
  · intro st h
    apply trackScrollDepth_neg
    rw [hnan h]
    cases st.maxScroll <;> rfl
  · intro st s h q hs hq
    have hp := hinf s h hs
    have hc : jsLt st.maxScroll (scrollPercentOf s h h) = true := by
      rw [hp, hq]
      rfl
    have hfil : milestones.filter
        (fun m => jsLe (.fin m) (scrollPercentOf s h h) && !st.tracked.contains m) =
        milestones.filter (fun m => !st.tracked.contains m) := by
      apply List.filter_congr
      intro x hx
      rw [hp]
      simp [jsLe]
    rw [trackScrollDepth_pos st s h h hc, hfil, hp]

/-- C9 witness: the `Infinity` statement applied to a concrete tick from
the initial state. -/
theorem C9_witness :
    (0 : ℚ) < 10 ∧ initialScrollState.maxScroll = .fin 0 ∧
    trackScrollDepth initialScrollState 10 900 900 =
      ({ maxScroll := .inf,
         tracked := initialScrollState.tracked ++
           milestones.filter (fun m => !initialScrollState.tracked.contains m) },
       milestones.filter (fun m => !initialScrollState.tracked.contains m)) :=
  ⟨by norm_num, rfl,
   C9_unguarded_division.2.2.2 initialScrollState 10 900 0 (by norm_num) rfl⟩

end AutoTrack
